import Mathlib

/-!
Verification of the BlindCrawler core (src/main.py).

Python strings are embedded as `List Char` (sequences of code points);
Python `None`-able values as `Option`; operations on the live browser,
the LLM API and the keyboard are external collaborators, modelled by
explicit environment records whose fields record, for each call the
code makes, whether it raises (`Except.error`) and what it returns
(`Except.ok`).  Machine integers are `Nat`/`Int`.
-/

/-- Python `str` as a list of code points. -/
abbrev PyStr := List Char

/-- ASCII whitespace recognised by Python `str.strip()`. -/
def isPySpace (c : Char) : Bool :=
  decide (c.toNat = 32 ∨ c.toNat = 9 ∨ c.toNat = 10 ∨ c.toNat = 13 ∨
          c.toNat = 11 ∨ c.toNat = 12)

/-- Python `str.strip()`: drop leading and trailing whitespace. -/
def pyStrip (l : PyStr) : PyStr :=
  ((l.dropWhile isPySpace).reverse.dropWhile isPySpace).reverse

/-- Python `str.isdigit()` restricted to ASCII digits (the only inputs the
crawler's numeric-choice path cares about). -/
def isPyDigit (c : Char) : Bool :=
  decide (48 ≤ c.toNat ∧ c.toNat ≤ 57)

/-- Python `str.isdigit()` on a whole string: non-empty and all digits. -/
def py_isdigit (l : PyStr) : Bool :=
  !l.isEmpty && l.all isPyDigit

/-- Python `int(s)` on a digit string: decimal value. -/
def py_int (l : PyStr) : Nat :=
  l.foldl (fun n c => n * 10 + (c.toNat - 48)) 0

/-- Python `str.lower()` on one ASCII code point. -/
def pyLowerChar (c : Char) : Char :=
  if 65 ≤ c.toNat ∧ c.toNat ≤ 90 then Char.ofNat (c.toNat + 32) else c

/-- Python `str.lower()`. -/
def pyLower (l : PyStr) : PyStr := l.map pyLowerChar

/-- Python `pat in s` (substring containment). -/
def list_contains (pat : PyStr) : PyStr → Bool
  | [] => pat.isEmpty
  | c :: rest => pat.isPrefixOf (c :: rest) || list_contains pat rest

/-- Python `s.endswith('.')`: the last code point is a period. -/
def pyEndsWithDot (l : PyStr) : Bool :=
  match l.getLast? with
  | some c => c == '.'
  | none => false

/-- The separator `". "` used by `summary.split('. ')` in `crawl`. -/
def sepSentence : PyStr := ['.', ' ']

/-- Worker for `summary.split('. ')`: left-to-right, non-overlapping scan,
accumulating the current part in reverse (Python `str.split` semantics for
the two-character separator `". "`). -/
def pySplitSentenceAux : PyStr → PyStr → List PyStr
  | [], acc => [acc.reverse]
  | '.' :: ' ' :: rest, acc => acc.reverse :: pySplitSentenceAux rest []
  | c :: rest, acc => pySplitSentenceAux rest (c :: acc)

/-- Python `summary.split('. ')` (src/main.py line 554 / 852). -/
def pySplitSentence (l : PyStr) : List PyStr := pySplitSentenceAux l []

/-- The two-sentence truncation applied to a summary in `crawl`
(src/main.py lines 553-558 and 851-856):
`parts = summary.split('. ')`; if more than two parts, keep the first two
joined by `". "`, stripped, re-appending `'.'` when missing. -/
def truncate_summary (summary : PyStr) : PyStr :=
  let parts := pySplitSentence summary
  if parts.length > 2 then
    let s2 := pyStrip (List.intercalate sepSentence (parts.take 2))
    if pyEndsWithDot s2 then s2 else s2 ++ ['.']
  else summary

/-! ## Clickable registry: dedup and pagination (announce_clickables,
_announce_current_page, and the crawl loop's empty-input branch). -/

/-- `identifier[:30].lower()` — the dedup key (src/main.py line 454). -/
def short_id (identifier : PyStr) : PyStr := pyLower (identifier.take 30)

/-- The dedup loop of `announce_clickables` (src/main.py lines 450-457):
walk the discovered `(element, identifier)` pairs keeping the first
occurrence of each `short_id` key; `seen` is the `seen_ids` set. -/
def dedupAux {α : Type} (seen : List PyStr) :
    List (α × PyStr) → List (α × PyStr)
  | [] => []
  | (el, identifier) :: rest =>
    if short_id identifier ∈ seen then dedupAux seen rest
    else (el, identifier) :: dedupAux (short_id identifier :: seen) rest

/-- Deduplicate discovered clickables by the case-folded 30-char key. -/
def dedupClickables {α : Type} (l : List (α × PyStr)) : List (α × PyStr) :=
  dedupAux [] l

/-- The mutable session state the registry/pagination code touches:
`self.all_clickable_items`, `self.current_page`, `self.items_per_page`,
`self.clickable_items` and `self.interactive`. -/
structure CrawlerState (α : Type) where
  all_clickable_items : List (α × PyStr)
  current_page : Nat
  items_per_page : Nat
  clickable_items : List α
  interactive : Bool
deriving DecidableEq

/-- `_announce_current_page` (src/main.py lines 483-521): recompute the
window `all_clickable_items[start_idx:end_idx]` and store its elements in
`self.clickable_items`.  Speech output is a sink and not modelled. -/
def announce_current_page {α : Type} (s : CrawlerState α) : CrawlerState α :=
  let start_idx := s.current_page * s.items_per_page
  let end_idx := min (start_idx + s.items_per_page) s.all_clickable_items.length
  let current_page_items := (s.all_clickable_items.drop start_idx).take (end_idx - start_idx)
  { s with clickable_items := current_page_items.map Prod.fst }

/-- `announce_clickables` happy path (src/main.py lines 449-467):
`discovered` is the list of visible elements paired with their non-empty
identifiers, as produced by the discovery/filter loop; the method dedups
it, stores it as the registry, resets `current_page` to 0, sets
`items_per_page` to 5 and re-announces the (first) page. -/
def announce_clickables {α : Type} (discovered : List (α × PyStr))
    (s : CrawlerState α) : CrawlerState α :=
  let unique := dedupClickables discovered
  announce_current_page
    { s with all_clickable_items := unique, current_page := 0, items_per_page := 5 }

/-- The empty-input branch of the crawl loop (src/main.py lines 568-574):
advance to the next page if one exists (`current_page < total_pages - 1`,
Python integer arithmetic, hence the `Int` comparison), then re-announce. -/
def advance_page {α : Type} (s : CrawlerState α) : CrawlerState α :=
  let total_pages :=
    (s.all_clickable_items.length + s.items_per_page - 1) / s.items_per_page
  let s2 :=
    if (s.current_page : Int) < (total_pages : Int) - 1 then
      { s with current_page := s.current_page + 1 }
    else s
  announce_current_page s2

/-- Outcome of one round of the choice prompt (src/main.py lines 567-584). -/
inductive UserAction : Type where
  | advancePage : UserAction
  | exitSession : UserAction
  | invalidNumber : UserAction
  | invalidOption : UserAction
  | click : Nat → UserAction
deriving DecidableEq

/-- Validation of one input line in the crawl loop (src/main.py lines
567-584): strip, empty input pages forward, `exit`/`quit` leaves,
non-digit strings are rejected, then `idx = int(choice) - 1` is checked
against the current page's `clickable_items` only. -/
def handle_choice {α : Type} (line : PyStr) (s : CrawlerState α) : UserAction :=
  let choice := pyStrip line
  if choice = [] then UserAction.advancePage
  else if pyLower choice = ['e', 'x', 'i', 't'] ∨ pyLower choice = ['q', 'u', 'i', 't'] then
    UserAction.exitSession
  else if ¬ py_isdigit choice = true then UserAction.invalidNumber
  else
    let idx : Int := (py_int choice : Int) - 1
    if idx < 0 ∨ (s.clickable_items.length : Int) ≤ idx then UserAction.invalidOption
    else UserAction.click idx.toNat

/-! ## Element re-resolution: the click cascade (crawl, src/main.py
lines 654-712).  The saved element info is `element_text` (stripped),
`element_tag`, `element_href` (only for anchors, possibly absent) and
`element_xpath` (the saved structural path).  The environment records,
for each browser call the cascade can make, whether it succeeds. -/

/-- Which fallback strategy produced the click. -/
inductive ClickMethod : Type where
  | direct : ClickMethod
  | js : ClickMethod
  | byText : ClickMethod
  | byHref : ClickMethod
  | byXpath : ClickMethod
  | refreshed : ClickMethod
deriving DecidableEq

/-- The descriptor saved before clicking (src/main.py lines 589-614). -/
structure ElemInfo : Type where
  element_text : PyStr
  element_tag : PyStr
  element_href : Option PyStr
  element_xpath : PyStr
deriving DecidableEq

/-- Outcomes of the browser calls the cascade makes: `directOk` is
`click_item.click()`, `jsOk` the script-forced click, `byTextOk`,
`byHrefOk`, `byXpathOk` the three find-and-click relocations, and
`refreshedItems` the refreshed `a, button` discovery (number of visible
elements with text; `Except.error` when `find_elements` raises). -/
structure ClickEnv : Type where
  directOk : Bool
  jsOk : Bool
  byTextOk : Bool
  byHrefOk : Bool
  byXpathOk : Bool
  refreshedItems : Except Unit Nat
  refreshedClickOk : Bool

/-- Python truthiness of the saved `element_href`. -/
def href_truthy : Option PyStr → Bool
  | some h => !h.isEmpty
  | none => false

/-- Last-resort strategy (src/main.py lines 699-712): refresh the list
with a minimal `a, button` query, keep the first five visible elements,
and click the one at the original index if it still exists. -/
def strategy_refresh (idx : Nat) (env : ClickEnv) : Option ClickMethod :=
  match env.refreshedItems with
  | Except.error _ => none
  | Except.ok n =>
    if idx < min n 5 then
      if env.refreshedClickOk then some ClickMethod.refreshed else none
    else none

/-- The full click cascade (src/main.py lines 654-712).  Strategies 1 and
2 are tried in order; the relocation block (lines 672-694) is an
`if element_text / elif element_href / elif element_xpath` chain, so
exactly one of strategies 3-5 is selected by the descriptor's attributes,
and if that one raises control passes to the refreshed-list strategy.
`none` means `clicked` stayed false. -/
def attempt_click (info : ElemInfo) (idx : Nat) (env : ClickEnv) :
    Option ClickMethod :=
  if env.directOk then some ClickMethod.direct
  else if env.jsOk then some ClickMethod.js
  else if info.element_text ≠ [] then
    (if env.byTextOk then some ClickMethod.byText else strategy_refresh idx env)
  else if href_truthy info.element_href then
    (if env.byHrefOk then some ClickMethod.byHref else strategy_refresh idx env)
  else if info.element_xpath ≠ [] then
    (if env.byXpathOk then some ClickMethod.byXpath else strategy_refresh idx env)
  else none

/-! ## Content extraction: fetch_dynamic (src/main.py lines 104-331). -/

/-- Environment for one `fetch_dynamic` call.  `prelude_ok` covers the
unguarded driver calls before extraction (`current_url`, `get`);
`body_text_length` is the script reading `document.body.innerText.length`;
`special` is the structured visible-text/links/buttons/inputs document the
special-extraction script renders to (abstracted to its final HTML string);
`findElements` gives, per CSS selector, the matches' `outerHTML` values
(inner `Except.error` = `get_attribute` raised); `cleaned` is the
script-stripped full-document clone; `page_source` is `driver.page_source`,
assumed infallible. -/
structure FetchEnv : Type where
  url : PyStr
  prelude_ok : Except Unit Unit
  body_text_length : Except Unit Nat
  special : Except Unit PyStr
  findElements : String → Except Unit (List (Except Unit PyStr))
  cleaned : Except Unit PyStr
  page_source : PyStr

/-- The fixed priority list of content containers (src/main.py 288-291). -/
def content_selectors : List String :=
  ["article", "main", "#content", ".content", "#main", ".main",
   "section", ".post", ".article", "[role='main']"]

/-- The inner loop over one selector's matches (src/main.py 297-304):
return the first match whose `outerHTML` is longer than 100 characters;
a raising `get_attribute` is skipped. -/
def tryElements : List (Except Unit PyStr) → Option PyStr
  | [] => none
  | Except.error _ :: rest => tryElements rest
  | Except.ok html :: rest =>
    if 100 < html.length then some html else tryElements rest

/-- The outer loop over the priority list (src/main.py 294-306): a
raising `find_elements` moves on to the next selector. -/
def trySelectors (env : FetchEnv) : List String → Option PyStr
  | [] => none
  | sel :: rest =>
    match env.findElements sel with
    | Except.error _ => trySelectors env rest
    | Except.ok els =>
      match tryElements els with
      | some h => some h
      | none => trySelectors env rest

/-- `"google.com"`, the substring tested against `url.lower()`. -/
def google_pat : PyStr :=
  ['g', 'o', 'o', 'g', 'l', 'e', '.', 'c', 'o', 'm']

/-- The body of the outer `try` of `fetch_dynamic` (src/main.py 106-328):
navigation prelude, body-text probe, the conditional special extraction,
the selector priority list, the cleaned clone, then `page_source`. -/
def fetch_dynamic_try (env : FetchEnv) : Except Unit PyStr :=
  match env.prelude_ok with
  | Except.error e => Except.error e
  | Except.ok _ =>
    match env.body_text_length with
    | Except.error e => Except.error e
    | Except.ok btl =>
      let is_google := list_contains google_pat (pyLower env.url)
      let special_result : Option PyStr :=
        if is_google = true ∨ btl < 100 then
          match env.special with
          | Except.ok s => some s
          | Except.error _ => none
        else none
      match special_result with
      | some s => Except.ok s
      | none =>
        match trySelectors env content_selectors with
        | some h => Except.ok h
        | none =>
          match env.cleaned with
          | Except.ok c => Except.ok c
          | Except.error _ => Except.ok env.page_source

/-- `fetch_dynamic` (src/main.py 104-331): the outer handler maps any
escaped exception to `driver.page_source`. -/
def fetch_dynamic (env : FetchEnv) : Except Unit PyStr :=
  match fetch_dynamic_try env with
  | Except.ok s => Except.ok s
  | Except.error _ => Except.ok env.page_source

/-! ## LLM analysis: analyze_with_llm (src/main.py lines 333-386). -/

/-- The parsed `{"summary", "click_selector"}` result. -/
structure LLMResult : Type where
  summary : PyStr
  click_selector : PyStr
deriving DecidableEq

/-- Outcome of one `chat.completions.create` call: a parsed result, an
exception whose text matches the size-limit patterns
(`context_length_exceeded` / `maximum context length`), or any other
API exception. -/
inductive LLMOutcome : Type where
  | ok : LLMResult → LLMOutcome
  | sizeError : LLMOutcome
  | otherError : LLMOutcome

/-- `"\n...[CONTENT TRUNCATED]...\n"` (27 characters, line 343). -/
def trunc_marker : PyStr :=
  "\n...[CONTENT TRUNCATED]...\n".toList

/-- `"\n...[CONTENT HEAVILY TRUNCATED]...\n"` (35 characters, line 373). -/
def heavy_marker : PyStr :=
  "\n...[CONTENT HEAVILY TRUNCATED]...\n".toList

/-- The canned degraded result (src/main.py lines 378-381). -/
def degraded_summary : LLMResult :=
  ⟨("Web content too large to analyze. This may be a complex page.").toList, []⟩

/-- The canned result for non-size API errors (lines 383-386). -/
def api_error_summary : LLMResult :=
  ⟨("Error occurred while analyzing the page. Please try another action.").toList, []⟩

/-- `analyze_with_llm` (src/main.py 333-386) with an explicit call oracle
`llm` and a fuel argument bounding the recursion depth Python would
realise on its call stack; `none` means the fuel was exhausted, i.e. the
recursion did not terminate within that depth.  The initial truncation
keeps `html[:40000]` and `html[-20000:]` around a marker when the input
exceeds 60000 characters; a size error retries on
`html[:15000] + marker + html[-15000:]` whenever the current fragment is
longer than 30000 characters, else returns the degraded summary.
The entry truncation (src/main.py 336-345): when the fragment exceeds
60000 characters keep `html[:40000]` and `html[-20000:]` around a marker. -/
def initial_trunc (html : PyStr) : PyStr :=
  if 60000 < html.length then
    html.take 40000 ++ trunc_marker ++ html.drop (html.length - 20000)
  else html

/-- The size-error retry truncation (src/main.py 373):
`html[:15000] + marker + html[-15000:]`. -/
def heavy_trunc (html : PyStr) : PyStr :=
  html.take 15000 ++ heavy_marker ++ html.drop (html.length - 15000)

/-- `analyze_with_llm` (src/main.py 333-386): entry truncation, one LLM
call, and the size-error retry loop, with an explicit call oracle. -/
def analyze_with_llm (llm : PyStr → LLMOutcome) : Nat → PyStr → Option LLMResult
  | 0, _ => none
  | fuel + 1, html =>
    match llm (initial_trunc html) with
    | LLMOutcome.ok r => some r
    | LLMOutcome.sizeError =>
      if 30000 < (initial_trunc html).length then
        analyze_with_llm llm fuel (heavy_trunc (initial_trunc html))
      else some degraded_summary
    | LLMOutcome.otherError => some api_error_summary

/-- An LLM collaborator that reports a size-exceeded condition on every
call — the persistent-failure scenario of end-to-end scenario C. -/
def llm_always_size : PyStr → LLMOutcome := fun _ => LLMOutcome.sizeError

/-- A 70000-character fragment (scenario C's input). -/
def html70k : PyStr := List.replicate 70000 'x'

/-! ## Concrete fixtures used by witnesses and counterexamples. -/

/-- Eight discovered clickables with distinct identifiers (scenario B). -/
def disc8 : List (Nat × PyStr) :=
  [(1, ['a']), (2, ['b']), (3, ['c']), (4, ['d']),
   (5, ['e']), (6, ['f']), (7, ['g']), (8, ['h'])]

/-- Session state at the start of the interactive loop. -/
def stInit : CrawlerState Nat := ⟨[], 0, 5, [], true⟩

/-- State after `announce_clickables` built the 8-item registry. -/
def st8 : CrawlerState Nat := announce_clickables disc8 stInit

/-- State after one empty-input advance: `current_page = 1`. -/
def stPage1 : CrawlerState Nat := advance_page st8

/-- A descriptor with non-empty text, an href and a saved path. -/
def infoCE : ElemInfo :=
  ⟨['N', 'e', 'x', 't'], ['a'], some ['/', 'n'], "/html/body/a".toList⟩

/-- Environment where the handle raises on both click styles, the
text-based relocation raises, the saved path matches (`byXpathOk`), and
the refreshed-list query raises. -/
def envCE : ClickEnv := ⟨false, false, false, false, true, Except.error (), false⟩

/-- A descriptor with empty text and no href, only a saved path. -/
def infoW : ElemInfo := ⟨[], ['a'], none, "/html/body/div[2]/a".toList⟩

/-- Environment where only the path-based relocation succeeds. -/
def envW : ClickEnv := ⟨false, false, false, false, true, Except.ok 0, false⟩

/-- A 151-character qualifying container match. -/
def htmlSmall : PyStr := List.replicate 151 'a'

/-- A 500-character qualifying container match (the largest one). -/
def htmlBig : PyStr := List.replicate 500 'b'

/-- The synthesized structured-fallback document (abstracted contents). -/
def structuredDoc : PyStr := "structured fallback".toList

/-- A non-Google page whose `article` selector has two qualifying
matches, the smaller one first. -/
def envFirstMatch : FetchEnv :=
  ⟨"https://example.com/".toList, Except.ok (), Except.ok 500,
   Except.ok structuredDoc,
   fun sel => if sel = "article"
              then Except.ok [Except.ok htmlSmall, Except.ok htmlBig]
              else Except.ok [],
   Except.ok ("cleaned".toList), "page source".toList⟩

/-- The same page behaviour but reached through a google.com URL. -/
def envGoogle : FetchEnv :=
  ⟨"https://www.google.com/".toList, Except.ok (), Except.ok 500,
   Except.ok structuredDoc,
   fun sel => if sel = "article"
              then Except.ok [Except.ok htmlSmall, Except.ok htmlBig]
              else Except.ok [],
   Except.ok ("cleaned".toList), "page source".toList⟩

/-! ## Helper lemmas. -/

/-- Dedup run twice (from any seen-set) equals dedup run once. -/
theorem dedupAux_idem {α : Type} (l : List (α × PyStr)) :
    ∀ seen, dedupAux seen (dedupAux seen l) = dedupAux seen l := by
  induction l with
  | nil => intro seen; rfl
  | cons p rest ih =>
    intro seen
    obtain ⟨el, identifier⟩ := p
    by_cases h : short_id identifier ∈ seen
    · simp only [dedupAux, if_pos h]
      exact ih seen
    · simp only [dedupAux, if_neg h]
      rw [ih (short_id identifier :: seen)]

/-- Dedup keeps a subsequence of the original discovery order. -/
theorem dedupAux_sublist {α : Type} (l : List (α × PyStr)) :
    ∀ seen, List.Sublist (dedupAux seen l) l := by
  induction l with
  | nil => intro seen; simp [dedupAux]
  | cons p rest ih =>
    intro seen
    obtain ⟨el, identifier⟩ := p
    by_cases h : short_id identifier ∈ seen
    · simp only [dedupAux, if_pos h]
      exact List.Sublist.cons _ (ih seen)
    · simp only [dedupAux, if_neg h]
      exact List.Sublist.cons₂ _ (ih _)

/-- The keys of a dedup result are nodup and avoid the seen-set. -/
theorem dedupAux_keys {α : Type} (l : List (α × PyStr)) :
    ∀ seen, ((dedupAux seen l).map (fun p => short_id p.2)).Nodup ∧
      ∀ k ∈ (dedupAux seen l).map (fun p => short_id p.2), k ∉ seen := by
  induction l with
  | nil => intro seen; simp [dedupAux]
  | cons p rest ih =>
    intro seen
    obtain ⟨el, identifier⟩ := p
    by_cases h : short_id identifier ∈ seen
    · simp only [dedupAux, if_pos h]
      exact ih seen
    · simp only [dedupAux, if_neg h, List.map_cons, List.nodup_cons]
      refine ⟨⟨?_, (ih _).1⟩, ?_⟩
      · intro hmem
        exact ((ih (short_id identifier :: seen)).2 _ hmem) (List.mem_cons_self _ _)
      · intro k hk
        rcases List.mem_cons.mp hk with hk | hk
        · exact hk ▸ h
        · intro hks
          exact (ih _).2 _ hk (List.mem_cons_of_mem _ hks)

/-- Appending a period makes the last character a period. -/
theorem pyEndsWithDot_append (l : PyStr) :
    pyEndsWithDot (l ++ ['.']) = true := by
  simp [pyEndsWithDot, List.getLast?_concat]

/-- Lowercasing leaves an all-digit string unchanged. -/
theorem pyLower_of_digits (l : PyStr) (h : l.all isPyDigit = true) :
    pyLower l = l := by
  induction l with
  | nil => rfl
  | cons c rest ih =>
    simp only [List.all_cons, Bool.and_eq_true] at h
    have hd : 48 ≤ c.toNat ∧ c.toNat ≤ 57 := by
      have := h.1
      simpa [isPyDigit] using this
    have hc : pyLowerChar c = c := by
      unfold pyLowerChar
      rw [if_neg]
      omega
    show pyLowerChar c :: pyLower rest = c :: rest
    rw [hc, ih h.2]

/-- The retry fragment always has exactly 30035 characters when the
input was over the 30000-character guard. -/
theorem heavy_trunc_length (html : PyStr) (h : 30000 < html.length) :
    (heavy_trunc html).length = 30035 := by
  have hm : heavy_marker.length = 35 := by decide
  simp only [heavy_trunc, List.length_append, List.length_take,
    List.length_drop, hm]
  omega

/-- The entry truncation never brings a fragment at or below the
30000-character retry guard. -/
theorem initial_trunc_length (html : PyStr) (h : 30000 < html.length) :
    30000 < (initial_trunc html).length := by
  unfold initial_trunc
  split
  · have hm : trunc_marker.length = 27 := by decide
    simp only [List.length_append, List.length_take, List.length_drop, hm]
    omega
  · exact h

/-- Under persistently reported size errors, any fragment longer than
30000 characters makes `analyze_with_llm` recurse forever: the degraded
branch is unreachable for every recursion depth. -/
theorem analyze_size_loop :
    ∀ (fuel : Nat) (html : PyStr), 30000 < html.length →
      analyze_with_llm llm_always_size fuel html = none := by
  intro fuel
  induction fuel with
  | zero => intro html _; rfl
  | succ n ih =>
    intro html h
    have h2 : 30000 < (initial_trunc html).length := initial_trunc_length html h
    have h3 : 30000 < (heavy_trunc (initial_trunc html)).length := by
      rw [heavy_trunc_length _ h2]; omega
    simp only [analyze_with_llm, llm_always_size, if_pos h2]
    exact ih _ h3

/-- `_announce_current_page` does not move the page index. -/
theorem announce_current_page_current_page {α : Type} (s : CrawlerState α) :
    (announce_current_page s).current_page = s.current_page := rfl

/-- `_announce_current_page` does not touch the registry. -/
theorem announce_current_page_all {α : Type} (s : CrawlerState α) :
    (announce_current_page s).all_clickable_items = s.all_clickable_items := rfl

/-- The page index produced by the empty-input branch. -/
theorem advance_page_current_page {α : Type} (s : CrawlerState α) :
    (advance_page s).current_page =
      if (s.current_page : Int) <
          (((s.all_clickable_items.length + s.items_per_page - 1) /
            s.items_per_page : Nat) : Int) - 1 then
        s.current_page + 1
      else s.current_page := by
  simp only [advance_page]
  split <;> rfl

/-- The empty-input branch does not touch the registry. -/
theorem advance_page_all {α : Type} (s : CrawlerState α) :
    (advance_page s).all_clickable_items = s.all_clickable_items := by
  simp only [advance_page]
  split <;> rfl

/-- The empty-input branch does not touch the page size. -/
theorem advance_page_per {α : Type} (s : CrawlerState α) :
    (advance_page s).items_per_page = s.items_per_page := by
  simp only [advance_page]
  split <;> rfl

/-- The announced window is a contiguous slice of the registry. -/
theorem announce_current_page_window {α : Type} (s : CrawlerState α) :
    ∃ pre post, pre ++ (announce_current_page s).clickable_items ++ post =
      s.all_clickable_items.map Prod.fst := by
  refine ⟨(s.all_clickable_items.map Prod.fst).take (s.current_page * s.items_per_page),
    (((s.all_clickable_items.map Prod.fst).drop (s.current_page * s.items_per_page)).drop
      (min (s.current_page * s.items_per_page + s.items_per_page)
        s.all_clickable_items.length - s.current_page * s.items_per_page)), ?_⟩
  show (s.all_clickable_items.map Prod.fst).take _ ++
      ((s.all_clickable_items.drop _).take _).map Prod.fst ++ _ = _
  rw [List.map_take, List.map_drop, List.append_assoc, List.take_append_drop,
    List.take_append_drop]

/-! ## The claims. -/

/-- C9: deduplication of discovered elements keys on the case-folded
30-character prefix of the identifier with first-seen-wins ordering (the
result is a subsequence of the input whose keys are pairwise distinct),
and it is idempotent: running the dedup pass twice yields the same list
as running it once. -/
theorem C9_dedup_idempotent {α : Type} (l : List (α × PyStr)) :
    dedupClickables (dedupClickables l) = dedupClickables l ∧
    List.Sublist (dedupClickables l) l ∧
    ((dedupClickables l).map (fun p => short_id p.2)).Nodup :=
  ⟨dedupAux_idem l [], dedupAux_sublist l [], (dedupAux_keys l []).1⟩

/-- C8: for a summary with at least 3 parts under `split('. ')`, the
truncation step outputs the first two parts joined by `". "` (stripped,
with a trailing period appended when missing) and the output ends with
`'.'`; with at most 2 parts the summary is returned unchanged. -/
theorem C8_summary_truncation (summary : PyStr) :
    (3 ≤ (pySplitSentence summary).length →
      truncate_summary summary =
        (if pyEndsWithDot
              (pyStrip (List.intercalate sepSentence ((pySplitSentence summary).take 2)))
          then pyStrip (List.intercalate sepSentence ((pySplitSentence summary).take 2))
          else pyStrip (List.intercalate sepSentence ((pySplitSentence summary).take 2))
                ++ ['.']) ∧
      pyEndsWithDot (truncate_summary summary) = true) ∧
    ((pySplitSentence summary).length ≤ 2 → truncate_summary summary = summary) := by
  constructor
  · intro h3
    have h2 : (pySplitSentence summary).length > 2 := h3
    constructor
    · simp only [truncate_summary, if_pos h2]
    · simp only [truncate_summary, if_pos h2]
      split
      · rename_i hdot
        exact hdot
      · exact pyEndsWithDot_append _
  · intro hle
    have h2 : ¬ (pySplitSentence summary).length > 2 := by omega
    simp only [truncate_summary, if_neg h2]

/-- C8 witness: a three-sentence summary is cut to two sentences ending
in a period. -/
theorem C8_summary_truncation_witness :
    truncate_summary ("One. Two. Three".toList) = "One. Two.".toList ∧
    pyEndsWithDot (truncate_summary ("One. Two. Three".toList)) = true := by
  have h := (C8_summary_truncation ("One. Two. Three".toList)).1 (by decide)
  exact ⟨by decide, h.2⟩

/-- C4: for every behaviour of the page environment — any collaborator
call raising — `fetch_dynamic` returns some HTML fragment and never
propagates an exception, reading the page source being infallible. -/
theorem C4_fetch_never_raises (env : FetchEnv) :
    ∃ s : PyStr, fetch_dynamic env = Except.ok s := by
  cases h : fetch_dynamic_try env with
  | ok s => exact ⟨s, by simp [fetch_dynamic, h]⟩
  | error e => exact ⟨env.page_source, by simp [fetch_dynamic, h]⟩

/-- C6: advancing the options page past the final page is a clamped
no-op: once `current_page` equals `ceil(N/5) - 1` an empty-input advance
leaves it unchanged; and with the 8-item registry of scenario B the page
counter goes 0, 1, 1. -/
theorem C6_pagination_clamp :
    (∀ (α : Type) (s : CrawlerState α), s.items_per_page = 5 →
        s.current_page = (s.all_clickable_items.length + 4) / 5 - 1 →
        (advance_page s).current_page = s.current_page) ∧
    ((announce_clickables disc8 stInit).current_page = 0 ∧
      (advance_page (announce_clickables disc8 stInit)).current_page = 1 ∧
      (advance_page (advance_page (announce_clickables disc8 stInit))).current_page = 1) := by
  constructor
  · intro α s h5 hcp
    rw [advance_page_current_page, h5, if_neg]
    rw [hcp]
    omega
  · exact ⟨by decide, by decide, by decide⟩

/-- C6 witness: on the second page of the 8-item registry, a further
advance leaves the page index unchanged. -/
theorem C6_pagination_clamp_witness :
    (advance_page stPage1).current_page = stPage1.current_page :=
  C6_pagination_clamp.1 Nat stPage1 (by decide) (by decide)

/-- C5 counterexample: a session state on options page 1 with the
interactive flag set; triggering the spacebar announce path (with the
very discovery that produced the current registry, i.e. an unchanged DOM)
resets the option-page index to 0, so session state is changed. -/
theorem C5_announce_cex :
    stPage1.interactive = true ∧
    (announce_clickables disc8 stPage1).current_page ≠ stPage1.current_page :=
  ⟨rfl, by decide⟩

/-- C5 (amended): the spacebar announce path leaves the interactive-mode
flag unchanged and is idempotent for a fixed discovery result, and it
replaces the registry with the dedup of the fresh discovery — but it
resets the option-page index to 0 instead of preserving it. -/
theorem C5_announce_effects :
    ∀ (α : Type) (disc : List (α × PyStr)) (s : CrawlerState α),
      s.interactive = true →
      announce_clickables disc (announce_clickables disc s) =
        announce_clickables disc s ∧
      (announce_clickables disc s).interactive = s.interactive ∧
      (announce_clickables disc s).all_clickable_items = dedupClickables disc ∧
      (announce_clickables disc s).current_page = 0 := by
  intro α disc s _
  exact ⟨rfl, rfl, rfl, rfl⟩

/-- C5 witness: the amended announce-path effects at the 8-item fixture. -/
theorem C5_announce_effects_witness :
    announce_clickables disc8 (announce_clickables disc8 stInit) =
      announce_clickables disc8 stInit ∧
    (announce_clickables disc8 stInit).interactive = stInit.interactive ∧
    (announce_clickables disc8 stInit).all_clickable_items = dedupClickables disc8 ∧
    (announce_clickables disc8 stInit).current_page = 0 :=
  C5_announce_effects Nat disc8 stInit rfl

/-- C7: whenever the registry is non-empty the invariant
`current_page * items_per_page < len(registry)` holds after a registry
rebuild, is preserved by an empty-input page advance, and the announced
window is always a contiguous slice of the registry. -/
theorem C7_pagination_invariant (α : Type) :
    (∀ (disc : List (α × PyStr)) (s : CrawlerState α),
        (announce_clickables disc s).all_clickable_items ≠ [] →
        (announce_clickables disc s).current_page *
            (announce_clickables disc s).items_per_page <
          (announce_clickables disc s).all_clickable_items.length) ∧
    (∀ s : CrawlerState α, s.items_per_page = 5 →
        (s.all_clickable_items ≠ [] →
          s.current_page * 5 < s.all_clickable_items.length) →
        (advance_page s).all_clickable_items ≠ [] →
        (advance_page s).current_page * 5 <
          (advance_page s).all_clickable_items.length) ∧
    (∀ s : CrawlerState α, ∃ pre post,
        pre ++ (announce_current_page s).clickable_items ++ post =
          s.all_clickable_items.map Prod.fst) := by
  refine ⟨?_, ?_, fun s => announce_current_page_window s⟩
  · intro disc s h
    have h0 : (announce_clickables disc s).current_page = 0 := rfl
    rw [h0, Nat.zero_mul]
    exact List.length_pos.mpr h
  · intro s h5 hinv hne
    rw [advance_page_all] at hne
    rw [advance_page_all, advance_page_current_page, h5]
    split
    · rename_i hlt
      omega
    · exact hinv hne

/-- C7 witness: the invariant after the rebuild with the 8-item fixture. -/
theorem C7_pagination_invariant_witness :
    (announce_clickables disc8 stInit).current_page *
        (announce_clickables disc8 stInit).items_per_page <
      (announce_clickables disc8 stInit).all_clickable_items.length :=
  (C7_pagination_invariant Nat).1 disc8 stInit (by decide)

/-- C1 counterexample: a descriptor with non-empty saved text whose
handle raises on the direct and the script-forced click and whose saved
structural path still matches a live element (`byXpathOk`); the cascade
never attempts the path-based strategy — the text-based relocation is
selected instead, and when it raises control moves to the refreshed-list
strategy, which here also fails — so the click fails outright instead of
succeeding via the path-based strategy. -/
theorem C1_resolver_cex :
    envCE.directOk = false ∧ envCE.jsOk = false ∧ envCE.byXpathOk = true ∧
    infoCE.element_xpath ≠ [] ∧ attempt_click infoCE 0 envCE = none := by
  decide

/-- C1 (amended): strategies 3-5 are mutually exclusive alternatives
keyed on the descriptor's attributes, not a sequential cascade: the
path-based strategy is attempted only when the saved text is empty and
the saved href is absent or empty, and in that case — the handle raising
on the direct and script clicks and the path matching — the click
succeeds and reports the path-based method; when the saved text is
non-empty and its relocation raises, control passes directly to the
refreshed-list strategy, skipping the href- and path-based ones. -/
theorem C1_resolver_path_strategy :
    ∀ (info : ElemInfo) (idx : Nat) (env : ClickEnv),
      (info.element_text = [] → href_truthy info.element_href = false →
        info.element_xpath ≠ [] → env.directOk = false → env.jsOk = false →
        env.byXpathOk = true →
        attempt_click info idx env = some ClickMethod.byXpath) ∧
      (info.element_text ≠ [] → env.directOk = false → env.jsOk = false →
        env.byTextOk = false →
        attempt_click info idx env = strategy_refresh idx env) := by
  intro info idx env
  constructor
  · intro ht hh hx hd hj hb
    simp [attempt_click, hd, hj, ht, hh, hx, hb]
  · intro ht hd hj hb
    simp [attempt_click, hd, hj, ht, hb]

/-- C1 witness: a text-less, href-less descriptor with a live path is
clicked via the path-based strategy. -/
theorem C1_resolver_path_strategy_witness :
    attempt_click infoW 0 envW = some ClickMethod.byXpath :=
  (C1_resolver_path_strategy infoW 0 envW).1 rfl rfl (by decide) rfl rfl rfl

set_option maxRecDepth 4000 in
/-- C3 counterexample: on a page whose `article` selector has two
qualifying matches with the smaller one first, extraction returns the
first qualifying match rather than the largest; and on a google.com URL
the structured fallback document is synthesized even though a selector
match qualifies. -/
theorem C3_extraction_cex :
    fetch_dynamic envFirstMatch = Except.ok htmlSmall ∧
    100 < htmlSmall.length ∧ htmlSmall.length < htmlBig.length ∧
    envFirstMatch.findElements "article" =
      Except.ok [Except.ok htmlSmall, Except.ok htmlBig] ∧
    fetch_dynamic envGoogle = Except.ok structuredDoc ∧
    structuredDoc ≠ htmlSmall :=
  ⟨by rfl, by decide, by decide, by rfl, by rfl, by decide⟩

/-- C3 (amended): the per-selector loop returns the first match in DOM
order whose serialized length exceeds 100 (not the largest); when the
URL does not contain "google.com" and the body text has at least 100
characters, the priority-list result — when one qualifies — is what
`fetch_dynamic` returns; and when the URL contains "google.com" or the
body text is shorter than 100 characters, the structured fallback
document is synthesized and returned before the priority list is ever
consulted. -/
theorem C3_extraction_first_match :
    (∀ els, tryElements els =
        els.findSome? (fun r =>
          match r with
          | Except.ok h => if 100 < h.length then some h else none
          | Except.error _ => none)) ∧
    (∀ (env : FetchEnv) (n : Nat) (h : PyStr),
        env.prelude_ok = Except.ok () → env.body_text_length = Except.ok n →
        list_contains google_pat (pyLower env.url) = false → ¬ n < 100 →
        trySelectors env content_selectors = some h →
        fetch_dynamic env = Except.ok h) ∧
    (∀ (env : FetchEnv) (n : Nat) (s : PyStr),
        env.prelude_ok = Except.ok () → env.body_text_length = Except.ok n →
        (list_contains google_pat (pyLower env.url) = true ∨ n < 100) →
        env.special = Except.ok s →
        fetch_dynamic env = Except.ok s) := by
  refine ⟨?_, ?_, ?_⟩
  · intro els
    induction els with
    | nil => rfl
    | cons r rest ih =>
      cases r with
      | error e => simpa [tryElements, List.findSome?] using ih
      | ok html =>
        by_cases hlen : 100 < html.length
        · simp [tryElements, List.findSome?, hlen]
        · simpa [tryElements, List.findSome?, hlen] using ih
  · intro env n h hpre hbtl hg hn hsel
    have hcond : ¬ (list_contains google_pat (pyLower env.url) = true ∨ n < 100) := by
      rw [hg]
      simp [hn]
    simp only [fetch_dynamic, fetch_dynamic_try, hpre, hbtl, hsel, if_neg hcond]
  · intro env n s hpre hbtl hg hspec
    simp only [fetch_dynamic, fetch_dynamic_try, hpre, hbtl, hspec, if_pos hg]

/-- C3 witness: the google.com environment takes the structured-fallback
branch. -/
theorem C3_extraction_first_match_witness :
    fetch_dynamic envGoogle = Except.ok structuredDoc :=
  C3_extraction_first_match.2.2 envGoogle 500 structuredDoc rfl rfl
    (Or.inl (by decide)) rfl

/-- C2: the code violates the claim.  The size-error retry fragment is
`html[:15000] + marker + html[-15000:]`, exactly 30035 characters — over
both the claimed 30000-character bound and the code's own `> 30000`
retry guard — so when the LLM reports a size error on every call the
70000-character scenario never reaches the degraded-summary branch:
`analyze_with_llm` recurses at every depth instead of returning it. -/
theorem C2_size_retry_diverges :
    (∀ fuel : Nat,
        analyze_with_llm llm_always_size fuel html70k = none) ∧
    (∀ html : PyStr, 30000 < html.length → (heavy_trunc html).length = 30035) := by
  constructor
  · intro fuel
    refine analyze_size_loop fuel html70k ?_
    show 30000 < (List.replicate 70000 'x').length
    rw [List.length_replicate]
    omega
  · exact heavy_trunc_length

/-- C2 witness: the retry fragment built from a 30001-character fragment
has 30035 characters, above the retry guard. -/
theorem C2_size_retry_diverges_witness :
    (heavy_trunc (List.replicate 30001 'x')).length = 30035 :=
  C2_size_retry_diverges.2 (List.replicate 30001 'x')
    (by rw [List.length_replicate]; omega)

/-- C10: a digit string is accepted exactly when its value is between 1
and the length of the currently announced page slice; the announced
slice never exceeds 5 items; the string "0" is always rejected; and an
item index that is only valid on a later page of a multi-page registry
("7" against the 8-item registry showing items 1-5) is rejected without
clicking. -/
theorem C10_choice_validation :
    (∀ (α : Type) (s : CrawlerState α) (line : PyStr),
        py_isdigit (pyStrip line) = true →
        (handle_choice line s = UserAction.click (py_int (pyStrip line) - 1) ↔
          1 ≤ py_int (pyStrip line) ∧
            py_int (pyStrip line) ≤ s.clickable_items.length)) ∧
    (∀ (α : Type) (s : CrawlerState α),
        handle_choice ['0'] s = UserAction.invalidOption) ∧
    (∀ (α : Type) (s : CrawlerState α), s.items_per_page = 5 →
        (announce_current_page s).clickable_items.length ≤ 5) ∧
    (handle_choice ['7'] st8 = UserAction.invalidOption ∧
      st8.all_clickable_items.length = 8 ∧ st8.clickable_items.length = 5) := by
  refine ⟨?_, ?_, ?_, by decide, by decide, by decide⟩
  · intro α s line hdig
    have hne : ¬ pyStrip line = [] := by
      intro h0
      rw [h0] at hdig
      simp [py_isdigit] at hdig
    have hall : (pyStrip line).all isPyDigit = true := by
      simp only [py_isdigit, Bool.and_eq_true] at hdig
      exact hdig.2
    have hlow : pyLower (pyStrip line) = pyStrip line := pyLower_of_digits _ hall
    have hexit : ¬ (pyLower (pyStrip line) = ['e', 'x', 'i', 't'] ∨
        pyLower (pyStrip line) = ['q', 'u', 'i', 't']) := by
      rw [hlow]
      rintro (h | h) <;> rw [h] at hall <;> exact absurd hall (by decide)
    have hdig2 : ¬ ¬ py_isdigit (pyStrip line) = true := by
      simp [hdig]
    simp only [handle_choice, if_neg hne, if_neg hexit, if_neg hdig2]
    split
    · rename_i hcond
      constructor
      · intro hcontra
        exact absurd hcontra (by simp)
      · intro hv
        exfalso
        omega
    · rename_i hcond
      push_neg at hcond
      constructor
      · intro _
        omega
      · intro _
        have hnat : ((py_int (pyStrip line) : Int) - 1).toNat =
            py_int (pyStrip line) - 1 := by omega
        rw [hnat]
  · intro α s
    simp only [handle_choice]
    rw [if_neg (by decide), if_neg (by decide), if_neg (by decide),
      if_pos (Or.inl (by decide))]
  · intro α s h5
    have hlen : (announce_current_page s).clickable_items.length =
        min (min (s.current_page * s.items_per_page + s.items_per_page)
              s.all_clickable_items.length - s.current_page * s.items_per_page)
          (s.all_clickable_items.length - s.current_page * s.items_per_page) := by
      simp [announce_current_page, List.length_map, List.length_take, List.length_drop]
    rw [hlen, h5]
    omega

/-- C10 witness: the digit string "3" against a 5-item page is accepted
and clicks the third item. -/
theorem C10_choice_validation_witness :
    handle_choice ['3'] st8 = UserAction.click 2 :=
  (C10_choice_validation.1 Nat st8 ['3'] (by decide)).mpr (by decide)
